import Mathlib

/-!
Verification of the rate-resolution logic of a currency-converter program
(`src/main.py`).  Rates are modelled as rationals (`ℚ`), Python dicts as
association lists with a first-match lookup, and the HTTP layer as a value
that is either a transport error or a parsed JSON body.  Python truthiness
matters in this code (`if not base_rate_vs_usd`, `if conversion_rate`,
`if rates`): a numeric value of `0` and the empty table are falsy, and the
embedding reproduces that.
-/

namespace CurrencyConverter

/-- A calendar date, as passed to `strftime` in the source. -/
structure Date where
  year : Nat
  month : Nat
  day : Nat
deriving DecidableEq

/-- Zero-pad a numeral to two digits, as `strftime` does for `%m` and `%d`. -/
def pad2 (n : Nat) : String :=
  if n < 10 then "0" ++ toString n else toString n

/-- Zero-pad a numeral to four digits, as `strftime` does for `%Y`. -/
def pad4 (n : Nat) : String :=
  if n < 10 then "000" ++ toString n
  else if n < 100 then "00" ++ toString n
  else if n < 1000 then "0" ++ toString n
  else toString n

/-- `query_date.strftime("%Y-%m-%d")` from the source. -/
def Date.fmtDash (d : Date) : String :=
  pad4 d.year ++ "-" ++ pad2 d.month ++ "-" ++ pad2 d.day

/-- `query_date.strftime("%Y/%m/%d")`, the date path segment of the
historical endpoint URL in the source. -/
def Date.fmtSlash (d : Date) : String :=
  pad4 d.year ++ "/" ++ pad2 d.month ++ "/" ++ pad2 d.day

/-- A rate table: the Python dict `data["rates"]`, keys unique in practice;
lookup takes the first match, matching dict semantics. -/
abbrev RateTable := List (String × ℚ)

/-- `d.get(k)` on a Python dict, returning `None` when the key is absent. -/
def dictGet (d : RateTable) (k : String) : Option ℚ :=
  match d with
  | [] => none
  | (k₀, v) :: rest => if k₀ = k then some v else dictGet rest k

/-- The parsed JSON body of an API response:
`{ "result": ..., "rates": {...}, "error-type"?: ... }`. -/
structure ApiResponse where
  result : String
  rates : RateTable
  errorType : Option String
deriving DecidableEq

/-- Outcome of `requests.get` + `raise_for_status` + `.json()`: either a
`requests.exceptions.RequestException` (connection error or non-2xx
status) or a parsed body. -/
inductive HttpResult where
  | netError (msg : String)
  | ok (data : ApiResponse)
deriving DecidableEq

/-- What a rate-fetching function produces: the returned pair
`(rates, rate_date)` — both `None` on failure — plus the message passed to
`st.error`, if any. -/
structure FetchOutcome where
  rates : Option RateTable
  rateDate : Option String
  errorMsg : Option String
deriving DecidableEq

/-- `get_live_rates` from `src/main.py` (lines 9–23): on a successful body
return the full table and today's date; on a non-success status report an
`API Error` with the body's error-type (default "Unknown error"); on a
transport exception report a `Network Error`. -/
def get_live_rates (today : Date) (resp : HttpResult) : FetchOutcome :=
  match resp with
  | .netError e =>
    ⟨none, none, some ("Network Error: Could not connect to the API. " ++ e)⟩
  | .ok data =>
    if data.result = "success" then
      ⟨some data.rates, some today.fmtDash, none⟩
    else
      ⟨none, none, some ("API Error: " ++ data.errorType.getD "Unknown error")⟩

/-- `get_historical_rates` from `src/main.py` (lines 27–51): the endpoint is
USD-based, so on success look up the requested base currency's own rate
(`rates.get(base_currency)`); if that is missing *or falsy* (`if not
base_rate_vs_usd`) report that historical data is unavailable; otherwise
divide every entry by it and return the adjusted table with the requested
date. -/
def get_historical_rates (base_currency : String) (query_date : Date)
    (resp : HttpResult) : FetchOutcome :=
  match resp with
  | .netError e =>
    ⟨none, none, some ("Network Error: Could not connect to the API. " ++ e)⟩
  | .ok data =>
    if data.result = "success" then
      match dictGet data.rates base_currency with
      | none =>
        ⟨none, none,
          some ("Historical data for " ++ base_currency ++ " not available.")⟩
      | some base_rate_vs_usd =>
        if base_rate_vs_usd = 0 then
          ⟨none, none,
            some ("Historical data for " ++ base_currency ++ " not available.")⟩
        else
          ⟨some (data.rates.map (fun p => (p.1, p.2 / base_rate_vs_usd))),
            some query_date.fmtDash, none⟩
    else
      ⟨none, none, some ("API Error: " ++ data.errorType.getD "Unknown error")⟩

/-- What the UI block after the Convert button (lines 90–101) does. -/
inductive DisplayOutcome where
  | shown (converted_amount : ℚ) (conversion_rate : ℚ)
  | rateNotFound (msg : String)
  | silent
deriving DecidableEq

/-- `true` exactly on the `CurrencyUnsupported` error path (the
`st.error(f"Could not find the exchange rate for {to_currency}.")` branch). -/
def DisplayOutcome.isRateNotFound : DisplayOutcome → Bool
  | .rateNotFound _ => true
  | _ => false

/-- The caller-side conversion logic, `src/main.py` lines 90–101:
`if rates:` (falsy for `None` and for the empty dict) then
`conversion_rate = rates.get(to_currency)`; `if conversion_rate:` (falsy
for `None` and for `0`) multiply and display, else report the missing
rate. -/
def convert_and_display (amount : ℚ) (to_currency : String)
    (res : FetchOutcome) : DisplayOutcome :=
  match res.rates with
  | none => .silent
  | some rates =>
    if rates = [] then .silent
    else
      match dictGet rates to_currency with
      | none =>
        .rateNotFound ("Could not find the exchange rate for "
          ++ to_currency ++ ".")
      | some conversion_rate =>
        if conversion_rate = 0 then
          .rateNotFound ("Could not find the exchange rate for "
            ++ to_currency ++ ".")
        else
          .shown (amount * conversion_rate) conversion_rate

/-- A memoization-cache entry with the time it was stored. -/
structure CacheEntry (α : Type) where
  value : α
  storedAt : Nat
deriving DecidableEq

/-- Modelled from the spec: the `st.cache_data` decorator itself lives in the
streamlit library, not in this repository.  Per the spec, a cached entry is
served while it is no older than the TTL; an entry older than the TTL — or a
missing entry — triggers a fresh outbound fetch, and a cache with no TTL
keeps entries for the process lifetime. -/
def cacheNeedsFetch {α : Type} (ttl : Option Nat) (now : Nat)
    (entry : Option (CacheEntry α)) : Bool :=
  match entry with
  | none => true
  | some e =>
    match ttl with
    | none => false
    | some t => decide (t < now - e.storedAt)

/-- `@st.cache_data(ttl=3600)` on `get_live_rates` (line 8). -/
def liveRatesTtl : Option Nat := some 3600

/-- `@st.cache_data` with no TTL on `get_historical_rates` (line 26). -/
def historicalRatesTtl : Option Nat := none

/-! ## Helper lemmas -/

/-- Looking a key up in a table whose values were all divided by `r` gives
the original value divided by `r`. -/
theorem dictGet_map_div (d : RateTable) (k : String) (r : ℚ) :
    dictGet (d.map (fun p => (p.1, p.2 / r))) k = (dictGet d k).map (· / r) := by
  induction d with
  | nil => rfl
  | cons hd tl ih =>
    simp only [List.map_cons, dictGet]
    by_cases h : hd.1 = k
    · simp [h]
    · simp [h, ih]

/-- Dividing every value of a table by `1` leaves the table unchanged. -/
theorem map_div_one (d : RateTable) :
    d.map (fun p => (p.1, p.2 / 1)) = d := by
  induction d with
  | nil => rfl
  | cons hd tl ih => simp [ih]

/-- The currency codes used in the concrete examples are distinct. -/
theorem usd_ne_eur : ("USD" : String) ≠ "EUR" := by decide

/-- USD and INR are distinct currency codes. -/
theorem usd_ne_inr : ("USD" : String) ≠ "INR" := by decide

/-- EUR and INR are distinct currency codes. -/
theorem eur_ne_inr : ("EUR" : String) ≠ "INR" := by decide

/-! ## Claim theorems -/

/-- Claim C1: for every USD-based rate table containing the requested base
currency with a nonzero rate, `get_historical_rates` produces the table
with every entry divided by the base's USD rate, so `adjusted[c] =
usdRate[c] / usdRate[base]` for every currency `c` in the table. -/
theorem historical_rebasing_pointwise (tbl : RateTable) (base : String)
    (r : ℚ) (qd : Date) (et : Option String)
    (_husd : dictGet tbl "USD" = some 1)
    (hbase : dictGet tbl base = some r) (hr : r ≠ 0) :
    (get_historical_rates base qd (.ok ⟨"success", tbl, et⟩)).rates
        = some (tbl.map (fun p => (p.1, p.2 / r)))
      ∧ ∀ c v, dictGet tbl c = some v →
          dictGet (tbl.map (fun p => (p.1, p.2 / r))) c = some (v / r) := by
  refine ⟨by simp [get_historical_rates, hbase, hr], fun c v hv => ?_⟩
  rw [dictGet_map_div, hv]
  rfl

/-- Witness for C1 at the spec's example: table `{USD:1, EUR:0.9, INR:83}`
with base `EUR` gives `adjusted[INR] = 83 / 0.9`. -/
theorem historical_rebasing_pointwise_witness :
    dictGet [("USD", 1), ("EUR", 9/10), ("INR", 83)] "EUR" = some (9/10)
    ∧ dictGet (([("USD", (1:ℚ)), ("EUR", 9/10), ("INR", 83)]).map
        (fun p => (p.1, p.2 / (9/10)))) "INR" = some (83 / (9/10)) := by
  have h := historical_rebasing_pointwise
    [("USD", 1), ("EUR", 9/10), ("INR", 83)] "EUR" (9/10) ⟨2023, 5, 4⟩ none
    (by simp [dictGet]) (by simp [dictGet, usd_ne_eur]) (by norm_num)
  exact ⟨by simp [dictGet, usd_ne_eur],
    h.2 "INR" 83 (by simp [dictGet, usd_ne_inr, eur_ne_inr])⟩

/-- Claim C2: the conversion displayed by the caller is exactly
`amount * conversion_rate` for every positive amount and positive rate
found in a (nonempty) returned table. -/
theorem converted_amount_is_product (amount conversion_rate : ℚ)
    (rates : RateTable) (to_currency : String) (rd em : Option String)
    (_hamount : 0 < amount) (hrate : 0 < conversion_rate)
    (hne : rates ≠ [])
    (hlook : dictGet rates to_currency = some conversion_rate) :
    convert_and_display amount to_currency ⟨some rates, rd, em⟩
      = .shown (amount * conversion_rate) conversion_rate := by
  simp [convert_and_display, hne, hlook, hrate.ne']

/-- Witness for C2: converting 100 at rate 0.9 displays exactly 100 times 0.9. -/
theorem converted_amount_is_product_witness :
    (0:ℚ) < 100 ∧ (0:ℚ) < 9/10
    ∧ convert_and_display 100 "EUR"
        ⟨some [("EUR", 9/10)], some "2024-01-01", none⟩
      = .shown (100 * (9/10)) (9/10) :=
  ⟨by norm_num, by norm_num,
    converted_amount_is_product 100 (9/10) [("EUR", 9/10)] "EUR"
      (some "2024-01-01") none (by norm_num) (by norm_num)
      (by decide) (by simp [dictGet])⟩

/-- Claim C3: re-basing a table that maps USD to 1 with base currency USD
returns the original table unchanged. -/
theorem rebase_usd_identity (tbl : RateTable) (qd : Date) (et : Option String)
    (husd : dictGet tbl "USD" = some 1) :
    (get_historical_rates "USD" qd (.ok ⟨"success", tbl, et⟩)).rates
      = some tbl := by
  simp [get_historical_rates, husd, map_div_one]

/-- Witness for C3 on the table with USD at 1, EUR at 0.9, INR at 83. -/
theorem rebase_usd_identity_witness :
    (get_historical_rates "USD" ⟨2023, 5, 4⟩
        (.ok ⟨"success", [("USD", 1), ("EUR", 9/10), ("INR", 83)], none⟩)).rates
      = some [("USD", 1), ("EUR", 9/10), ("INR", 83)] :=
  rebase_usd_identity _ _ _ (by decide)

/-- Claim C4: on success `get_live_rates` returns the full table with
today's date as the as-of date, while `get_historical_rates` returns the
re-based table with the requested query date as the as-of date. -/
theorem as_of_dates (today qd : Date) (tbl : RateTable) (et : Option String)
    (base : String) (r : ℚ)
    (hbase : dictGet tbl base = some r) (hr : r ≠ 0) :
    get_live_rates today (.ok ⟨"success", tbl, et⟩)
        = ⟨some tbl, some today.fmtDash, none⟩
      ∧ get_historical_rates base qd (.ok ⟨"success", tbl, et⟩)
        = ⟨some (tbl.map (fun p => (p.1, p.2 / r))), some qd.fmtDash, none⟩ := by
  exact ⟨by simp [get_live_rates], by simp [get_historical_rates, hbase, hr]⟩

/-- Witness for C4: today is 2025-10-12, the query date is 2024-10-12. -/
theorem as_of_dates_witness :
    get_live_rates ⟨2025, 10, 12⟩
        (.ok ⟨"success", [("USD", 1), ("EUR", 9/10)], none⟩)
      = ⟨some [("USD", 1), ("EUR", 9/10)], some "2025-10-12", none⟩
    ∧ get_historical_rates "EUR" ⟨2024, 10, 12⟩
        (.ok ⟨"success", [("USD", 1), ("EUR", 9/10)], none⟩)
      = ⟨some (([("USD", (1:ℚ)), ("EUR", 9/10)]).map
          (fun p => (p.1, p.2 / (9/10)))), some "2024-10-12", none⟩ := by
  have h := as_of_dates ⟨2025, 10, 12⟩ ⟨2024, 10, 12⟩
    [("USD", 1), ("EUR", 9/10)] none "EUR" (9/10) (by simp [dictGet, usd_ne_eur]) (by norm_num)
  exact ⟨by rw [h.1]; rfl, by rw [h.2]; rfl⟩

/-- Claim C5: when the requested base currency is absent from the USD
table, `get_historical_rates` reports that historical data is unavailable
and returns the failure pair. -/
theorem historical_base_unavailable (tbl : RateTable) (base : String)
    (qd : Date) (et : Option String)
    (habsent : dictGet tbl base = none) :
    get_historical_rates base qd (.ok ⟨"success", tbl, et⟩)
      = ⟨none, none,
          some ("Historical data for " ++ base ++ " not available.")⟩ := by
  simp [get_historical_rates, habsent]

/-- Witness for C5: base GBP absent from the one-entry USD table. -/
theorem historical_base_unavailable_witness :
    get_historical_rates "GBP" ⟨2023, 5, 4⟩
        (.ok ⟨"success", [("USD", 1)], none⟩)
      = ⟨none, none, some "Historical data for GBP not available."⟩ :=
  historical_base_unavailable _ _ _ _ (by decide)

/-- Claim C6: on a body whose status field is not the success sentinel,
both fetch functions return the failure pair `(None, None)` and report an
API error whose message is the body's error-type field, defaulting to
"Unknown error" when that field is absent. -/
theorem api_failure_both (data : ApiResponse) (today : Date)
    (base : String) (qd : Date)
    (hfail : data.result ≠ "success") :
    get_live_rates today (.ok data)
        = ⟨none, none,
            some ("API Error: " ++ data.errorType.getD "Unknown error")⟩
      ∧ get_historical_rates base qd (.ok data)
        = ⟨none, none,
            some ("API Error: " ++ data.errorType.getD "Unknown error")⟩ := by
  exact ⟨by simp [get_live_rates, hfail], by simp [get_historical_rates, hfail]⟩

/-- Witness for C6: a body with result "error" and no error-type field
yields the default "Unknown error" message from both functions. -/
theorem api_failure_both_witness :
    get_live_rates ⟨2025, 10, 12⟩ (.ok ⟨"error", [("USD", 1)], none⟩)
        = ⟨none, none, some "API Error: Unknown error"⟩
      ∧ get_historical_rates "EUR" ⟨2024, 10, 12⟩
          (.ok ⟨"error", [("USD", 1)], none⟩)
        = ⟨none, none, some "API Error: Unknown error"⟩ :=
  api_failure_both ⟨"error", [("USD", 1)], none⟩ ⟨2025, 10, 12⟩ "EUR"
    ⟨2024, 10, 12⟩ (by decide)

/-- Claim C7, counterexample: a successfully returned *empty* rate table
does not contain the target currency JPY, yet the caller shows nothing at
all (`if rates:` is falsy on an empty dict) instead of taking the
`CurrencyUnsupported` error path. -/
theorem missing_target_empty_table_cex :
    (convert_and_display 100 "JPY"
        (get_live_rates ⟨2025, 10, 12⟩ (.ok ⟨"success", [], none⟩))).isRateNotFound
        = false
      ∧ convert_and_display 100 "JPY"
          (get_live_rates ⟨2025, 10, 12⟩ (.ok ⟨"success", [], none⟩))
        = .silent
      ∧ dictGet [] "JPY" = none := by
  refine ⟨rfl, rfl, rfl⟩

/-- Claim C7 as amended: for every successfully returned *nonempty* rate
table that does not contain the requested target currency, the caller-side
lookup takes the `CurrencyUnsupported` error path — no crash and no
conversion using zero. -/
theorem missing_target_unsupported (amount : ℚ) (rates : RateTable)
    (to_currency : String) (rd em : Option String)
    (hne : rates ≠ []) (habsent : dictGet rates to_currency = none) :
    convert_and_display amount to_currency ⟨some rates, rd, em⟩
      = .rateNotFound ("Could not find the exchange rate for "
          ++ to_currency ++ ".") := by
  simp [convert_and_display, hne, habsent]

/-- Witness for C7 at the spec's example: live table with only EUR at 0.9,
queried for JPY. -/
theorem missing_target_unsupported_witness :
    convert_and_display 100 "JPY"
        ⟨some [("EUR", 9/10)], some "2025-10-12", none⟩
      = .rateNotFound "Could not find the exchange rate for JPY." :=
  missing_target_unsupported 100 [("EUR", 9/10)] "JPY"
    (some "2025-10-12") none (by decide) (by decide)

/-- Claim C8: a rate of exactly zero is treated like an absent key: a zero
target rate takes the same missing-rate branch in the caller, and a zero
base rate in re-basing takes the same unavailable branch as an absent base
currency, so a zero rate is never used in a conversion or a division. -/
theorem zero_rate_treated_as_absent (rates : RateTable)
    (base to_currency : String) (qd : Date) (et : Option String)
    (amount : ℚ) (rd em : Option String)
    (hzero_target : dictGet rates to_currency = some 0)
    (hzero_base : dictGet rates base = some 0)
    (hne : rates ≠ []) :
    convert_and_display amount to_currency ⟨some rates, rd, em⟩
        = .rateNotFound ("Could not find the exchange rate for "
            ++ to_currency ++ ".")
      ∧ get_historical_rates base qd (.ok ⟨"success", rates, et⟩)
        = ⟨none, none,
            some ("Historical data for " ++ base ++ " not available.")⟩ := by
  constructor
  · simp [convert_and_display, hne, hzero_target]
  · simp [get_historical_rates, hzero_base]

/-- Witness for C8: a table mapping XAU to 0 behaves as if XAU were
absent, both in conversion and in historical re-basing. -/
theorem zero_rate_treated_as_absent_witness :
    convert_and_display 100 "XAU"
        ⟨some [("XAU", 0), ("USD", 1)], some "2025-10-12", none⟩
        = .rateNotFound "Could not find the exchange rate for XAU."
      ∧ get_historical_rates "XAU" ⟨2024, 10, 12⟩
          (.ok ⟨"success", [("XAU", 0), ("USD", 1)], none⟩)
        = ⟨none, none, some "Historical data for XAU not available."⟩ :=
  zero_rate_treated_as_absent [("XAU", 0), ("USD", 1)] "XAU" "XAU"
    ⟨2024, 10, 12⟩ none 100 (some "2025-10-12") none
    (by decide) (by decide) (by decide)

/-- Claim C9: a live-rates cache entry older than the 3600-second TTL
triggers a fresh fetch, while historical-rates cache entries never expire
for the process lifetime. -/
theorem cache_expiry_policy (now : Nat) (e : CacheEntry FetchOutcome)
    (hold : 3600 < now - e.storedAt) :
    cacheNeedsFetch liveRatesTtl now (some e) = true
      ∧ ∀ (m : Nat) (e₂ : CacheEntry FetchOutcome),
          cacheNeedsFetch historicalRatesTtl m (some e₂) = false := by
  exact ⟨by simp [cacheNeedsFetch, liveRatesTtl, hold], fun m e₂ => rfl⟩

/-- Witness for C9: an entry stored at time 0 read at time 10000 (older
than 3600 seconds) must be refetched. -/
theorem cache_expiry_policy_witness :
    3600 < 10000 - 0
      ∧ cacheNeedsFetch liveRatesTtl 10000
          (some (⟨⟨none, none, none⟩, 0⟩ : CacheEntry FetchOutcome)) = true :=
  ⟨by norm_num,
    (cache_expiry_policy 10000 ⟨⟨none, none, none⟩, 0⟩ (by norm_num)).1⟩

/-- Claim C10: every successful historical re-basing maps the requested
base currency itself to exactly 1, whenever the base currency is present
in the USD table with a positive rate. -/
theorem rebased_base_is_one (tbl : RateTable) (base : String) (qd : Date)
    (et : Option String) (r : ℚ)
    (hbase : dictGet tbl base = some r) (hr : 0 < r) :
    ∃ adjusted,
      (get_historical_rates base qd (.ok ⟨"success", tbl, et⟩)).rates
          = some adjusted
        ∧ dictGet adjusted base = some 1 := by
  refine ⟨tbl.map (fun p => (p.1, p.2 / r)), ?_, ?_⟩
  · simp [get_historical_rates, hbase, hr.ne']
  · rw [dictGet_map_div, hbase]
    simp [div_self hr.ne']

/-- Witness for C10: re-basing by EUR maps EUR itself to 1. -/
theorem rebased_base_is_one_witness :
    ∃ adjusted,
      (get_historical_rates "EUR" ⟨2023, 5, 4⟩
          (.ok ⟨"success", [("USD", 1), ("EUR", 9/10), ("INR", 83)], none⟩)).rates
          = some adjusted
        ∧ dictGet adjusted "EUR" = some 1 :=
  rebased_base_is_one [("USD", 1), ("EUR", 9/10), ("INR", 83)] "EUR"
    ⟨2023, 5, 4⟩ none (9/10) (by simp [dictGet, usd_ne_eur]) (by norm_num)

end CurrencyConverter
